import Mathlib

/-!
Shallow embedding of the `gist` command-line client (files `gist/gist.py` and
`gist/client.py`) together with proofs about its list pagination, error
handling, create/content/edit handlers, and the `elide` and `pushd` helpers.

Python values decoded from JSON are modelled by the inductive type `Json`;
Python exceptions are modelled by the `PyExc` error type threaded through
`Except`; the filesystem state touched by `pushd`/`edit` is modelled by `FS`.
-/

set_option autoImplicit false

/-- Decoded JSON values, as produced by `response.json()` in the source.
Numbers are modelled as integers: every number appearing in the program's
requests and in the claims is an integer. -/
inductive Json where
  | null
  | bool (b : Bool)
  | num (n : Int)
  | str (s : String)
  | arr (elems : List Json)
  | obj (fields : List (String × Json))
deriving Repr

/-- Python exceptions that the embedded code can raise or catch. -/
inductive PyExc where
  | typeError
  | keyError
  | attributeError
  | binasciiError
  | unicodeError
deriving Repr, DecidableEq

/-- Lookup of a key in a decoded JSON object. Python dicts keep the last value
bound to a duplicated key, hence the left fold. -/
def objLookup (fields : List (String × Json)) (key : String) : Option Json :=
  fields.foldl (fun acc kv => if kv.1 = key then some kv.2 else acc) none

/-- Embedding of the Python subscript `value[key]` with a string key, as used
by `gist['id']`, `gist['files']`, `data['content']` in the source: objects
(dicts) yield the value or raise `KeyError`; every other decoded JSON value
raises `TypeError` (lists and strings demand integer indices, scalars are not
subscriptable). -/
def subscript (v : Json) (key : String) : Except PyExc Json :=
  match v with
  | .obj fields =>
    match objLookup fields key with
    | some x => .ok x
    | none => .error .keyError
  | _ => .error .typeError

/-- Embedding of Python `for`-iteration over a decoded JSON value, as used by
`for gist in response` in `GistAPI.list`: lists yield their elements, dicts
yield their keys, strings yield their one-character substrings, and the
remaining values raise `TypeError` (not iterable). -/
def pyIterate (v : Json) : Except PyExc (List Json) :=
  match v with
  | .arr xs => .ok xs
  | .obj fields => .ok (fields.map (fun kv => Json.str kv.1))
  | .str s => .ok (s.data.map (fun c => Json.str ⟨[c]⟩))
  | _ => .error .typeError

/-- Python truthiness of a decoded JSON value, used by
`"+" if info.public else "-"` in `handle_gist_list`. -/
def pyTruthy (v : Json) : Bool :=
  match v with
  | .null => false
  | .bool b => b
  | .num n => n != 0
  | .str s => match s.data with | [] => false | _ => true
  | .arr xs => match xs with | [] => false | _ => true
  | .obj fields => match fields with | [] => false | _ => true

/-- Python `str()` of a decoded JSON value, as applied by `"{} {} {}".format`
in `handle_gist_list`. It is specified here for the scalar values; the
program never formats a decoded list or dict in the code paths covered by the
claims, and for those two shapes this model renders an empty placeholder. -/
def pyStr (v : Json) : String :=
  match v with
  | .null => "None"
  | .bool b => if b then "True" else "False"
  | .num n => toString n
  | .str s => s
  | .arr _ => ""
  | .obj _ => ""

/-- Test for the JSON value `null`, embedding Python `is None`. -/
def isNull (v : Json) : Bool :=
  match v with
  | .null => true
  | _ => false

/-- The record produced for each gist by `GistAPI.list`; in the source it is
the namedtuple `GistInfo(id, public, desc)` whose fields hold the decoded JSON
values found in the response. -/
structure GistInfo where
  id : Json
  public : Json
  desc : Json
deriving Repr

/-- The request state threaded through the pagination loop: the URL (mutated
when a next page is followed) and the query parameters set by the initial
request in `GistAPI.list`. -/
structure Request where
  url : String
  accessToken : String
  perPage : Nat
deriving Repr

/-- One remote answer at a page boundary. `body` is `.error ()` when the
response body fails to decode as JSON (an empty or malformed body makes
`response.json()` raise); `link` is the value of the HTTP `link` response
header when the header is present. -/
structure Page where
  body : Except Unit Json
  link : Option String

/-- The root URL used by every request the client builds. -/
def baseUrl : String := "https://api.github.com/gists"

/-- Splits a character list at the first occurrence of `c`, dropping that
occurrence; `none` when `c` does not occur. This implements the regex pieces
of the form (any characters but `c`) followed by the literal `c` that make up
the link-header pattern of `GistAPI.list`. -/
def splitAtChar (c : Char) : List Char → Option (List Char × List Char)
  | [] => none
  | x :: xs =>
    if x = c then some ([], xs)
    else
      match splitAtChar c xs with
      | some (a, b) => some (x :: a, b)
      | none => none

/-- Matches a literal prefix of characters, returning the remainder. -/
def stripLit : List Char → List Char → Option (List Char)
  | [], l => some l
  | _ :: _, [] => none
  | c :: cs, x :: xs => if x = c then stripLit cs xs else none

/-- The literal characters between the two capture groups of the link-header
pattern: a semicolon, a space, `rel=` and an opening double quote. -/
def relLit : List Char := [';', ' ', 'r', 'e', 'l', '=', Char.ofNat 34]

/-- Tries to match the regular expression used by `GistAPI.list`, written in
the source as an angle-bracketed URL followed by a semicolon, a space and a
quoted relation name, at the head of the character list. On success it
returns the two capture groups (URL and relation) and the remaining
characters. -/
def matchAt (l : List Char) : Option ((String × String) × List Char) :=
  match l with
  | [] => none
  | x :: xs =>
    if x = '<' then
      (splitAtChar '>' xs).bind (fun p1 =>
        (stripLit relLit p1.2).bind (fun r2 =>
          (splitAtChar (Char.ofNat 34) r2).map (fun p2 =>
            ((⟨p1.1⟩, ⟨p2.1⟩), p2.2))))
    else none

/-- All matches of the link-header pattern in a character list, scanning left
to right and continuing after each match, as `pattern.finditer` does in
`GistAPI.list`. -/
def findMatchesFuel : Nat → List Char → List (String × String)
  | 0, _ => []
  | fuel + 1, l =>
    match matchAt l with
    | some (m, rest) => m :: findMatchesFuel fuel rest
    | none =>
      match l with
      | [] => []
      | _ :: xs => findMatchesFuel fuel xs

/-- All matches of the link-header pattern: every step of the scan consumes
at least one character (a successful match consumes the angle-bracketed URL,
a failure advances one position), so the length of the input bounds the
number of steps and `findMatchesFuel` never runs out of fuel. -/
def findMatches (l : List Char) : List (String × String) :=
  findMatchesFuel l.length l

/-- The `for`/`else` search in `GistAPI.list`: the URL of the first match
whose relation is `next`, if any. -/
def findNext : List (String × String) → Option String
  | [] => none
  | (u, r) :: rest => if r = "next" then some u else findNext rest

/-- Embedding of the attribute access `response.headers` performed by
`GistAPI.list` after `response = self.send(request).json()`. At that point
`response` is the decoded JSON body (a plain Python list, dict or scalar),
not the HTTP response object, and none of those values has a `headers`
attribute, so the access raises `AttributeError` unconditionally. -/
def jsonHeaders (_ : Json) : Except PyExc String := .error .attributeError

/-- Extraction of one element of the decoded page body, embedding the
`try`/`except KeyError: continue` around
`gists.append(GistInfo(gist['id'], gist['public'], gist['description']))`:
a missing key raises `KeyError`, which is caught and skips the element
(`.ok none`); any other exception (for example `TypeError` from subscripting
a non-dict element) propagates. -/
def extractItem (g : Json) : Except PyExc (Option GistInfo) :=
  match subscript g "id" with
  | .error .keyError => .ok none
  | .error e => .error e
  | .ok i =>
    match subscript g "public" with
    | .error .keyError => .ok none
    | .error e => .error e
    | .ok p =>
      match subscript g "description" with
      | .error .keyError => .ok none
      | .error e => .error e
      | .ok d => .ok (some { id := i, public := p, desc := d })

/-- The `for gist in response` accumulation loop of `GistAPI.list` applied to
the iterated elements: skipped elements contribute nothing, extracted records
are kept in order, and an uncaught exception aborts the whole call. -/
def extractItems : List Json → Except PyExc (List GistInfo)
  | [] => .ok []
  | g :: gs =>
    match extractItem g with
    | .error e => .error e
    | .ok none => extractItems gs
    | .ok (some info) =>
      match extractItems gs with
      | .error e => .error e
      | .ok rest => .ok (info :: rest)

/-- The body of the `while True` loop of `GistAPI.list`, with `fuel` bounding
the number of iterations (every theorem below instantiates `fuel` large
enough that the bound is never the reason the loop stops). The remote service
is modelled by `fetch`: `none` means `self.send(request)` or
`response.json()` raised (a transport failure), which the surrounding
`try`/`except` turns into `break`; otherwise the page carries the decode
result of the body and the HTTP `link` header. After accumulating the page's
records the code reads `response.headers['link']` — but `response` is the
decoded JSON value, so `jsonHeaders` raises and the enclosing
`try`/`except Exception: break` ends the loop. -/
def listLoop (fetch : Request → Option Page) :
    Nat → Request → List GistInfo → Except PyExc (List GistInfo)
  | 0, _, gists => .ok gists
  | fuel + 1, req, gists =>
    match fetch req with
    | none => .ok gists
    | some page =>
      match page.body with
      | .error _ => .ok gists
      | .ok response =>
        match pyIterate response with
        | .error e => .error e
        | .ok items =>
          match extractItems items with
          | .error e => .error e
          | .ok infos =>
            let gists := gists ++ infos
            match jsonHeaders response with
            | .error _ => .ok gists
            | .ok link =>
              match findNext (findMatches link.data) with
              | some nextUrl => listLoop fetch fuel { req with url := nextUrl } gists
              | none => .ok gists

/-- Embedding of `GistAPI.list`: the initial request carries the token and
`per_page = 100`, and the loop walks the pages. The value is `.ok` of the
accumulated records when the loop breaks or returns, and `.error` when an
exception escapes the loop (nothing in `list` catches `TypeError`). -/
def GistAPI.list (token : String) (fetch : Request → Option Page) (fuel : Nat) :
    Except PyExc (List GistInfo) :=
  listLoop fetch fuel { url := baseUrl, accessToken := token, perPage := 100 } []

/-- Follows the specification's pagination algorithm, for comparison with
`GistAPI.list`: after accumulating a page's records, inspect the HTTP `link`
response header (absent header ends the traversal), find the first entry with
relation `next`, and continue from its URL; when no `next` entry exists,
return the accumulated records. -/
def listSpecLoop (fetch : Request → Option Page) :
    Nat → Request → List GistInfo → Except PyExc (List GistInfo)
  | 0, _, gists => .ok gists
  | fuel + 1, req, gists =>
    match fetch req with
    | none => .ok gists
    | some page =>
      match page.body with
      | .error _ => .ok gists
      | .ok response =>
        match pyIterate response with
        | .error e => .error e
        | .ok items =>
          match extractItems items with
          | .error e => .error e
          | .ok infos =>
            let gists := gists ++ infos
            match page.link with
            | none => .ok gists
            | some link =>
              match findNext (findMatches link.data) with
              | some nextUrl => listSpecLoop fetch fuel { req with url := nextUrl } gists
              | none => .ok gists

/-- The specification-side list fetcher built on `listSpecLoop`. -/
def GistAPI.listSpec (token : String) (fetch : Request → Option Page) (fuel : Nat) :
    Except PyExc (List GistInfo) :=
  listSpecLoop fetch fuel { url := baseUrl, accessToken := token, perPage := 100 } []

/-- Embedding of `terminal_width()`/`elide` from `client.py`: `width` is the
determined terminal width, `none` when there is no terminal. When a width
above 3 is known and the text is longer than the width, the text is cut to
`width - 3` characters and three dots are appended; otherwise the text is
returned unchanged (the `try`/`except` around the length test never fires,
since `len` of a string raises no exception). -/
def elide (width : Option Nat) (txt : String) : String :=
  match width with
  | none => txt
  | some w =>
    if 3 < w then
      if w < txt.length then ⟨txt.data.take (w - 3) ++ ['.', '.', '.']⟩ else txt
    else txt

/-- The line built by `handle_gist_list` for one record: the id, a plus for a
truthy `public` field and a minus otherwise, and the description (an empty
string when the description is JSON null), joined by single spaces exactly as
the format string in the source does. -/
def formatGistLine (info : GistInfo) : String :=
  pyStr info.id ++ " " ++ (if pyTruthy info.public then "+" else "-") ++ " "
    ++ (if isNull info.desc then "" else pyStr info.desc)

/-- Embedding of `handle_gist_list`: fetch the records through
`GistAPI.list`, then print each formatted line through `elide`. The returned
list holds the printed lines in order; the `except UnicodeEncodeError` around
each `print` is not modelled because the model's output always encodes. -/
def handle_gist_list (token : String) (fetch : Request → Option Page)
    (width : Option Nat) (fuel : Nat) : Except PyExc (List String) :=
  match GistAPI.list token fetch fuel with
  | .error e => .error e
  | .ok gists => .ok (gists.map (fun info => elide width (formatGistLine info)))

/-- Value of a character in the standard base64 alphabet, `none` for a
character outside the alphabet. -/
def b64Value (c : Char) : Option Nat :=
  if 65 ≤ c.toNat ∧ c.toNat ≤ 90 then some (c.toNat - 65)
  else if 97 ≤ c.toNat ∧ c.toNat ≤ 122 then some (c.toNat - 97 + 26)
  else if 48 ≤ c.toNat ∧ c.toNat ≤ 57 then some (c.toNat - 48 + 52)
  else if c.toNat = 43 then some 62
  else if c.toNat = 47 then some 63
  else none

/-- Character of a 6-bit value in the standard base64 alphabet. -/
def b64Char (n : Nat) : Char :=
  if n < 26 then Char.ofNat (65 + n)
  else if n < 52 then Char.ofNat (97 + (n - 26))
  else if n < 62 then Char.ofNat (48 + (n - 52))
  else if n = 62 then Char.ofNat 43
  else Char.ofNat 47

/-- The base64 padding character. -/
def padChar : Char := Char.ofNat 61

/-- Standard base64 encoding of a byte list, used to build the encoded file
bodies that appear in the content scenario (the remote service stores file
content base64-encoded). -/
def b64encodeBytes : List Nat → List Char
  | [] => []
  | [b1] => [b64Char (b1 / 4), b64Char (b1 % 4 * 16), padChar, padChar]
  | [b1, b2] =>
    [b64Char (b1 / 4), b64Char (b1 % 4 * 16 + b2 / 16), b64Char (b2 % 16 * 4), padChar]
  | b1 :: b2 :: b3 :: rest =>
    b64Char (b1 / 4) :: b64Char (b1 % 4 * 16 + b2 / 16)
      :: b64Char (b2 % 16 * 4 + b3 / 64) :: b64Char (b3 % 64) :: b64encodeBytes rest

/-- Embedding of `base64.b64decode` on a string argument: four characters at
a time, with `=` padding allowed only at the very end; a character outside
the alphabet or a length not a multiple of four fails (the binascii error the
Python function raises). -/
def b64decodeChars : List Char → Option (List Nat)
  | [] => some []
  | a :: b :: c :: d :: rest =>
    match b64Value a, b64Value b with
    | some va, some vb =>
      if c = padChar then
        if d = padChar ∧ rest = [] then some [va * 4 + vb / 16] else none
      else
        match b64Value c with
        | some vc =>
          if d = padChar then
            if rest = [] then some [va * 4 + vb / 16, vb % 16 * 16 + vc / 4] else none
          else
            match b64Value d with
            | some vd =>
              (b64decodeChars rest).map
                (fun bs => (va * 4 + vb / 16) :: (vb % 16 * 16 + vc / 4)
                  :: (vc % 4 * 64 + vd) :: bs)
            | none => none
        | none => none
    | _, _ => none
  | _ => none

/-- UTF-8 encoding of one character as a byte list. -/
def utf8EncodeChar (c : Char) : List Nat :=
  let n := c.toNat
  if n < 128 then [n]
  else if n < 2048 then [192 + n / 64, 128 + n % 64]
  else if n < 65536 then [224 + n / 4096, 128 + n / 64 % 64, 128 + n % 64]
  else [240 + n / 262144, 128 + n / 4096 % 64, 128 + n / 64 % 64, 128 + n % 64]

/-- UTF-8 encoding of a string as a byte list, embedding Python
`s.encode('utf-8')`. -/
def utf8Encode (s : String) : List Nat :=
  (s.data.map utf8EncodeChar).flatten

/-- Whether a byte is a UTF-8 continuation byte. -/
def utf8Cont (b : Nat) : Bool := 128 ≤ b && b < 192

/-- Strict UTF-8 decoding of a byte list, embedding Python
`bytes.decode('utf-8')`: ill-formed sequences, overlong encodings,
surrogates and out-of-range code points all fail (the UnicodeDecodeError the
Python method raises). -/
def utf8Decode : List Nat → Option (List Char)
  | [] => some []
  | b :: rest =>
    if b < 128 then
      (utf8Decode rest).map (fun cs => Char.ofNat b :: cs)
    else if b < 192 then none
    else if b < 224 then
      match rest with
      | b1 :: rest1 =>
        if utf8Cont b1 then
          let n := (b - 192) * 64 + (b1 - 128)
          if 128 ≤ n then (utf8Decode rest1).map (fun cs => Char.ofNat n :: cs) else none
        else none
      | [] => none
    else if b < 240 then
      match rest with
      | b1 :: b2 :: rest2 =>
        if utf8Cont b1 && utf8Cont b2 then
          let n := (b - 224) * 4096 + (b1 - 128) * 64 + (b2 - 128)
          if 2048 ≤ n && !(55296 ≤ n && n < 57344) then
            (utf8Decode rest2).map (fun cs => Char.ofNat n :: cs)
          else none
        else none
      | _ => none
    else if b < 248 then
      match rest with
      | b1 :: b2 :: b3 :: rest3 =>
        if utf8Cont b1 && utf8Cont b2 && utf8Cont b3 then
          let n := (b - 240) * 262144 + (b1 - 128) * 4096 + (b2 - 128) * 64 + (b3 - 128)
          if 65536 ≤ n && n < 1114112 then
            (utf8Decode rest3).map (fun cs => Char.ofNat n :: cs)
          else none
        else none
      | _ => none
    else none

/-- Helper mirroring the test suite's construction of remote file bodies:
the base64 encoding of the UTF-8 bytes of a string. -/
def b64encode (s : String) : String := ⟨b64encodeBytes (utf8Encode s)⟩

/-- Embedding of the local `convert` function of `GistAPI.content`:
`base64.b64decode(data).decode('utf-8')`. A non-string argument makes
`b64decode` raise `TypeError`; bad base64 raises a binascii error; bytes that
are not valid UTF-8 raise a Unicode error. -/
def convert (data : Json) : Except PyExc String :=
  match data with
  | .str s =>
    match b64decodeChars s.data with
    | none => .error .binasciiError
    | some bytes =>
      match utf8Decode bytes with
      | none => .error .unicodeError
      | some cs => .ok ⟨cs⟩
  | _ => .error .typeError

/-- Embedding of the Python `.items()` call on a decoded JSON value: objects
yield their field list in insertion order (the claims only use objects with
distinct keys, where the dict is exactly this list); any other value has no
`items` attribute. -/
def dictItems (v : Json) : Except PyExc (List (String × Json)) :=
  match v with
  | .obj fields => .ok fields
  | _ => .error .attributeError

/-- The loop of `GistAPI.content` over `gist['files'].items()`: each file's
`content` field is fetched and converted; any exception propagates out of the
operation. -/
def contentItems : List (String × Json) → Except PyExc (List (String × String))
  | [] => .ok []
  | (name, data) :: rest =>
    match subscript data "content" with
    | .error e => .error e
    | .ok c =>
      match convert c with
      | .error e => .error e
      | .ok txt =>
        match contentItems rest with
        | .error e => .error e
        | .ok others => .ok ((name, txt) :: others)

/-- Embedding of `GistAPI.content`: `gist` is the decoded JSON resource
returned for the gist; the result maps each filename to the base64-decoded
text of its `content` field. -/
def GistAPI.content (gist : Json) : Except PyExc (List (String × String)) :=
  match subscript gist "files" with
  | .error e => .error e
  | .ok files =>
    match dictItems files with
    | .error e => .error e
    | .ok items => contentItems items

/-- Python `dict.get` on the content mapping (last binding of the key wins,
as in a dict built by insertion). -/
def lookupContent (content : List (String × String)) (fn : String) : Option String :=
  content.foldl (fun acc kv => if kv.1 = fn then some kv.2 else acc) none

/-- Embedding of `handle_gist_content` on the non-decrypting path (the
decrypting path shells out to the external gpg collaborator). `filename` is
the optional positional argument; `content.get(filename)` selects a single
file when the name is given and present, otherwise every file is printed as
its name, a colon, a newline and its decoded content, exactly the format
string of the source. The returned list holds the printed strings in
order. -/
def handle_gist_content (filename : Option String) (gist : Json) :
    Except PyExc (List String) :=
  match GistAPI.content gist with
  | .error e => .error e
  | .ok content =>
    match filename.bind (lookupContent content) with
    | some gistFile => .ok [gistFile]
    | none => .ok (content.map (fun kv => kv.1 ++ ":\n" ++ kv.2 ++ "\n"))

/-- A file assembled by `handle_gist_create` before the request is built: the
namedtuple `FileInfo(name, content)` of `client.py`. -/
structure FileInfo where
  name : String
  content : String
deriving Repr, DecidableEq

/-- The configuration options consulted by `handle_gist_create`:
`has_option` on the two gnupg settings is `isSome` here, and the value of a
present option is the carried string. -/
structure Config where
  gnupgHomedir : Option String
  gnupgFingerprint : Option String
deriving Repr, DecidableEq

/-- The user-facing error raised by the client handlers (`GistError` in the
source, reported with exit code 1). -/
inductive ClientErr where
  | gistError (msg : String)
deriving Repr, DecidableEq

/-- Observable side effects of one run of `handle_gist_create`: whether the
handler reached the step that reads file content (files, stdin or the
editor's temporary file), and whether it invoked the network create call. -/
structure CreateTrace where
  fileStage : Bool
  network : Bool
deriving Repr, DecidableEq

/-- An ASCII apostrophe, used by the empty-file error message. -/
def apos : String := ⟨[Char.ofNat 39]⟩

/-- Embedding of `handle_gist_create`. The handler first checks the
encryption settings when `--encrypt` was given, then performs the file I/O
that assembles the file set (modelled by the `assembled` argument: the claims
quantify over every file set the command can assemble), then rejects any
zero-length file content, then encrypts through the external gpg collaborator
(modelled by `encryptFn`) or passes the content through, and finally issues
the create API call (modelled by `api`, which receives the description, the
name-to-content data and the public flag and returns the new gist URL). The
returned trace records which of the file I/O and network steps were
reached. -/
def handle_gist_create (cfg : Config) (encrypt isPublic : Bool) (desc : String)
    (assembled : List FileInfo) (encryptFn : String → String)
    (api : String → List (String × String) → Bool → String) :
    Except ClientErr String × CreateTrace :=
  if encrypt ∧ cfg.gnupgHomedir.isNone then
    (.error (.gistError "gnupg-homedir missing from config file"),
      { fileStage := false, network := false })
  else if encrypt ∧ cfg.gnupgFingerprint.isNone then
    (.error (.gistError "gnupg-fingerprint missing from config file"),
      { fileStage := false, network := false })
  else
    match assembled.find? (fun f => f.content.length == 0) with
    | some f =>
      (.error (.gistError (apos ++ f.name ++ apos ++ " is empty")),
        { fileStage := true, network := false })
    | none =>
      let data :=
        if encrypt then
          assembled.map (fun f => (f.name ++ ".asc", encryptFn f.content))
        else
          assembled.map (fun f => (f.name, f.content))
      (.ok (api desc data isPublic), { fileStage := true, network := true })

/-- A path argument as passed to `os.chdir`/`shutil.rmtree`: either absolute
(a full segment list, as returned by `os.getcwd()`) or relative to the
current working directory. -/
inductive PyPath where
  | abs (segs : List String)
  | rel (segs : List String)
deriving Repr, DecidableEq

/-- Resolution of a path argument against a working directory. -/
def resolve (cwd : List String) : PyPath → List String
  | .abs segs => segs
  | .rel segs => cwd ++ segs

/-- The filesystem state visible to `pushd`, `clone`, `edit` and `rmtree`:
the current working directory and the set of existing directories. -/
structure FS where
  cwd : List String
  dirs : List (List String)
deriving Repr, DecidableEq

/-- Exceptions raised by the modelled filesystem calls. -/
inductive OSErr where
  | fileNotFound
deriving Repr, DecidableEq

/-- Embedding of `os.chdir`: fails with `FileNotFoundError` when the target
directory does not exist. -/
def chdir (p : PyPath) (fs : FS) : Except OSErr Unit × FS :=
  let t := resolve fs.cwd p
  if fs.dirs.contains t then (.ok (), { fs with cwd := t })
  else (.error .fileNotFound, fs)

/-- Embedding of the `pushd` context manager of `gist.py`. It remembers
`os.getcwd()`, changes into `path` and runs the body; the `yield` is not
wrapped in `try`/`finally`, so the restoring `os.chdir(original)` runs only
when the body finishes without an exception — a raising body propagates its
exception with the working directory left wherever the body put it. -/
def pushd {α : Type} (path : PyPath) (body : FS → Except OSErr α × FS) (fs : FS) :
    Except OSErr α × FS :=
  let original := fs.cwd
  match chdir path fs with
  | (.error e, fs') => (.error e, fs')
  | (.ok _, fs1) =>
    match body fs1 with
    | (.error e, fs2) => (.error e, fs2)
    | (.ok a, fs2) =>
      match chdir (.abs original) fs2 with
      | (.error e, fs3) => (.error e, fs3)
      | (.ok _, fs3) => (.ok a, fs3)

/-- Embedding of a Python `try`/`finally` block over the filesystem state:
the finaliser runs whether the body succeeds or raises; an exception raised
by the finaliser replaces the body's outcome, otherwise the body's outcome is
propagated. -/
def pyTryFinally {α : Type} (body : FS → Except OSErr α × FS)
    (finaliser : FS → Except OSErr Unit × FS) (fs : FS) : Except OSErr α × FS :=
  match body fs with
  | (.ok a, fs1) =>
    match finaliser fs1 with
    | (.ok _, fs2) => (.ok a, fs2)
    | (.error e, fs2) => (.error e, fs2)
  | (.error e, fs1) =>
    match finaliser fs1 with
    | (.ok _, fs2) => (.error e, fs2)
    | (.error e2, fs2) => (.error e2, fs2)

/-- Embedding of `GistAPI.clone` as called by `edit`: `os.system('git clone
…')` never raises; when the external git succeeds (`cloneOk`) a directory
named after the gist id appears under the current working directory, and on
failure the filesystem is unchanged — either way the call returns
normally. -/
def GistAPI.clone (cloneOk : Bool) (id : String) (fs : FS) : Except OSErr Unit × FS :=
  if cloneOk then
    (.ok (), { fs with dirs := resolve fs.cwd (.rel [id]) :: fs.dirs })
  else (.ok (), fs)

/-- Embedding of `shutil.rmtree`: removes the directory and everything below
it, raising `FileNotFoundError` when the directory does not exist. -/
def rmtree (p : PyPath) (fs : FS) : Except OSErr Unit × FS :=
  let t := resolve fs.cwd p
  if fs.dirs.contains t then
    (.ok (), { fs with dirs := fs.dirs.filter (fun d => ! t.isPrefixOf d) })
  else (.error .fileNotFound, fs)

/-- Embedding of `GistAPI.edit`: inside `pushd` into the temporary directory
`tmp` (the value of `tempfile.gettempdir()`), a `try` block clones the gist
and, inside `pushd` into the clone, lists the files and runs the editor and
the commit-and-push shell command; `os.system` returns the exit statuses
`editorStatus` and `commitPushStatus` without raising, and the code ignores
both. The `finally` clause removes the clone directory. -/
def GistAPI.edit (tmp : List String) (cloneOk : Bool)
    (editorStatus commitPushStatus : Int) (id : String) (fs : FS) :
    Except OSErr Unit × FS :=
  pushd (.abs tmp)
    (fun fs1 =>
      pyTryFinally
        (fun fs2 =>
          match GistAPI.clone cloneOk id fs2 with
          | (.error e, fs3) => (.error e, fs3)
          | (.ok _, fs3) =>
            pushd (.rel [id])
              (fun fs4 =>
                let _ := editorStatus
                let _ := commitPushStatus
                (.ok (), fs4))
              fs3)
        (rmtree (.rel [id]))
        fs1)
    fs

/-- The link header the remote sends with the first page in the two-page
pagination scenario: one entry whose relation is `next`, pointing at the
second page. -/
def pageOneLink : String := "<https://api.github.com/gists?page=2>; rel=\"next\""

/-- The single well-formed record of the first page of the two-page
scenario. -/
def gistEntryOne : Json :=
  .obj [("id", .num 1), ("public", .bool true), ("description", .str "first")]

/-- The single well-formed record of the second page of the two-page
scenario. -/
def gistEntryTwo : Json :=
  .obj [("id", .num 2), ("public", .bool false), ("description", .str "second")]

/-- A remote with exactly two pages: the base URL serves the first record
together with a link header advertising a `next` page, and that next URL
serves the second record with no link header. -/
def twoPageFetch : Request → Option Page := fun req =>
  if req.url = baseUrl then some { body := .ok (.arr [gistEntryOne]), link := some pageOneLink }
  else if req.url = "https://api.github.com/gists?page=2" then
    some { body := .ok (.arr [gistEntryTwo]), link := none }
  else none

/-- The decoded body of the list scenario of the specification: two records
with ids 1 and 2, the first public, the second private. -/
def listScenarioBody : Json := .arr
  [ .obj [("id", .num 1), ("description", .str "test-desc-A"), ("public", .bool true)],
    .obj [("id", .num 2), ("description", .str "test-desc-Ⅽ"), ("public", .bool false)] ]

/-- The endpoint of the list scenario: every request is answered with the
two-record body and no link header. -/
def listScenarioFetch : Request → Option Page :=
  fun _ => some { body := .ok listScenarioBody, link := none }

/-- A remote whose response body is the valid JSON text of a one-element
array holding a bare string — a malformed page body, since the fetcher
expects an array of record objects. -/
def malformedPageFetch : Request → Option Page :=
  fun _ => some { body := .ok (.arr [.str "x"]), link := none }

/-- Whether a decoded JSON value is an object. -/
def isObj (v : Json) : Bool :=
  match v with
  | .obj _ => true
  | _ => false

/-- Statement helper: the record extracted from a list entry that is an
object carrying all three expected keys, and `none` for an object missing
one of them or for a non-object. -/
def wellFormedInfo (g : Json) : Option GistInfo :=
  match g with
  | .obj fields =>
    match objLookup fields "id", objLookup fields "public",
        objLookup fields "description" with
    | some i, some p, some d => some { id := i, public := p, desc := d }
    | _, _, _ => none
  | _ => none

/-- The two files of the content scenario, each as a triple of filename,
base64-encoded stored content and expected decoded text. -/
def contentScenarioFiles : List (String × String × String) :=
  [("file-A.txt", (b64encode "test-content-A", "test-content-A")),
   ("file-B.txt", (b64encode "test-content-Ⅽ", "test-content-Ⅽ"))]

/-- The gist resource built from a list of files given as triples of name,
stored content and expected decoded text, shaped like the JSON the remote
returns for a gist. -/
def gistResource (files : List (String × String × String)) : Json :=
  .obj [("files", .obj (files.map (fun f => (f.1, Json.obj [("content", Json.str f.2.1)]))))]

/-- A small filesystem for the edit scenario: the process sits in its home
directory and the temporary directory exists. -/
def editScenarioFS : FS := { cwd := ["home"], dirs := [["home"], ["tmp"]] }

/-!
Theorems. Each claim of the specification is settled by one theorem below,
with a closed witness or counterexample where applicable.
-/

/-- Claim C1: the specification states that `list` returns the records of
all pages up to the page whose link header has no rel next entry, following
each advertised next URL. The code does not do this: after
`response = self.send(request).json()` the name `response` is bound to the
decoded JSON body, so the subsequent `response.headers['link']` raises
`AttributeError`, the `except Exception: break` fires, and the loop always
ends after the first page. At the concrete two-page remote `twoPageFetch`
the first page's link header does contain a rel next entry pointing at the
second page (first conjunct), yet the embedded code returns only the first
page's record (second conjunct), while the specification's traversal
`GistAPI.listSpec` returns the records of both pages (third conjunct). -/
theorem list_pagination_never_follows_next :
    findNext (findMatches pageOneLink.data) = some "https://api.github.com/gists?page=2"
    ∧ GistAPI.list "f00" twoPageFetch 5 =
        .ok [{ id := .num 1, public := .bool true, desc := .str "first" }]
    ∧ GistAPI.listSpec "f00" twoPageFetch 5 =
        .ok [{ id := .num 1, public := .bool true, desc := .str "first" },
             { id := .num 2, public := .bool false, desc := .str "second" }] :=
  ⟨rfl, rfl, rfl⟩

/-- Claim C2, counterexample: the claim says a malformed body at a page
boundary makes the fetcher stop and return the records accumulated so far,
the caller never observing a pagination error. The body of
`malformedPageFetch` is valid JSON but malformed as a record page (an array
holding a bare string); on it, `gist['id']` raises `TypeError`, which none of
the `except` clauses of `list` catches (only `KeyError` and failures of
`send`/`json` are caught), so the exception escapes to the caller instead of
the accumulated empty list being returned. -/
theorem list_malformed_body_raises :
    GistAPI.list "f00" malformedPageFetch 5 = .error .typeError
    ∧ GistAPI.list "f00" malformedPageFetch 5 ≠ .ok [] := by
  constructor
  · rfl
  · intro h
    rw [show GistAPI.list "f00" malformedPageFetch 5 = Except.error PyExc.typeError from rfl] at h
    exact Except.noConfusion h

/-- Claim C2 as amended: at a page boundary, a transport exception (the
fetch raises, modelled by `none`) or a body that fails to decode as JSON
(`body = .error ()`, covering the empty body) makes the loop stop and return
exactly the records accumulated so far, with no error surfaced to the
caller. (A body that decodes to a non-iterable value or to an array with a
non-object element instead raises an uncaught `TypeError`; see the
counterexample.) -/
theorem listLoop_swallows_transport_and_decode_failures :
    ∀ (fetch : Request → Option Page) (fuel : Nat) (req : Request) (gists : List GistInfo),
      (fetch req = none → listLoop fetch (fuel + 1) req gists = .ok gists)
      ∧ (∀ link : Option String,
          fetch req = some { body := .error (), link := link } →
          listLoop fetch (fuel + 1) req gists = .ok gists) := by
  intro fetch fuel req gists
  constructor
  · intro h
    simp [listLoop, h]
  · intro link h
    simp [listLoop, h]

/-- Witness for the amended claim C2 at concrete inputs: a transport failure
and an undecodable body at the first boundary each yield the accumulated
(empty) record list. -/
theorem listLoop_swallows_failures_witness :
    listLoop (fun _ => none) 1 { url := baseUrl, accessToken := "f00", perPage := 100 } []
      = .ok []
    ∧ listLoop (fun _ => some { body := .error (), link := none }) 1
        { url := baseUrl, accessToken := "f00", perPage := 100 } [] = .ok [] :=
  ⟨(listLoop_swallows_transport_and_decode_failures (fun _ => none) 0 _ []).1 rfl,
   (listLoop_swallows_transport_and_decode_failures
      (fun _ => some { body := .error (), link := none }) 0 _ []).2 none rfl⟩

/-- On an object entry, the guarded extraction of `GistAPI.list` computes
exactly `wellFormedInfo`: all three keys present gives the record, a missing
key gives a skip, and no exception escapes. -/
theorem extractItem_obj (fields : List (String × Json)) :
    extractItem (.obj fields) = .ok (wellFormedInfo (.obj fields)) := by
  simp only [extractItem, wellFormedInfo, subscript]
  cases objLookup fields "id" <;> cases objLookup fields "public" <;>
    cases objLookup fields "description" <;> simp

/-- On a page whose entries are all objects, the extraction loop of
`GistAPI.list` succeeds and keeps exactly the well-formed entries, in
order. -/
theorem extractItems_objs :
    ∀ entries : List Json, entries.all isObj = true →
      extractItems entries = .ok (entries.filterMap wellFormedInfo) := by
  intro entries
  induction entries with
  | nil => intro _; rfl
  | cons g gs ih =>
    intro h
    rw [List.all_cons, Bool.and_eq_true] at h
    obtain ⟨hg, hgs⟩ := h
    cases g <;> simp [isObj] at hg
    case obj fields =>
      rw [extractItems, extractItem_obj, ih hgs, List.filterMap_cons]
      cases wellFormedInfo (.obj fields) <;> simp

/-- Claim C3: a list entry (an object) missing the id, public or description
key is skipped (first conjunct), an entry carrying all three keys is kept
with exactly those values (second conjunct), and a page of object entries
yields precisely its well-formed entries without aborting the fetch (third
conjunct, stated through the full `GistAPI.list` on a single-page
remote). -/
theorem list_skips_entries_missing_keys :
    (∀ fields : List (String × Json),
      objLookup fields "id" = none ∨ objLookup fields "public" = none
        ∨ objLookup fields "description" = none →
      extractItem (.obj fields) = .ok none)
    ∧ (∀ (fields : List (String × Json)) (i p d : Json),
        objLookup fields "id" = some i → objLookup fields "public" = some p →
        objLookup fields "description" = some d →
        extractItem (.obj fields) = .ok (some { id := i, public := p, desc := d }))
    ∧ (∀ (token : String) (fuel : Nat) (link : Option String) (entries : List Json),
        entries.all isObj = true →
        GistAPI.list token (fun _ => some { body := .ok (.arr entries), link := link })
            (fuel + 1)
          = .ok (entries.filterMap wellFormedInfo)) := by
  refine ⟨?_, ?_, ?_⟩
  · intro fields h
    rw [extractItem_obj, wellFormedInfo]
    rcases h with h | h | h <;> rw [h] <;>
      cases objLookup fields "id" <;> cases objLookup fields "public" <;>
        cases objLookup fields "description" <;> simp
  · intro fields i p d hi hp hd
    rw [extractItem_obj, wellFormedInfo, hi, hp, hd]
  · intro token fuel link entries h
    rw [GistAPI.list, listLoop]
    simp only [pyIterate]
    rw [extractItems_objs entries h]
    simp [jsonHeaders]

/-- Witness for claim C3: a two-entry page whose second entry misses the
description key yields exactly the first entry's record. -/
theorem list_skips_entries_missing_keys_witness :
    GistAPI.list "f00"
        (fun _ => some
          { body := .ok (.arr
              [.obj [("id", .num 1), ("public", .bool true), ("description", .str "a")],
               .obj [("id", .num 2), ("public", .bool false)]]),
            link := none })
        1
      = .ok [{ id := .num 1, public := .bool true, desc := .str "a" }] := by
  have h := list_skips_entries_missing_keys.2.2 "f00" 0 none
    [.obj [("id", .num 1), ("public", .bool true), ("description", .str "a")],
     .obj [("id", .num 2), ("public", .bool false)]] rfl
  exact h.trans rfl

/-- Claim C4: for every assembled file set containing a zero-length content
(and a configuration that lets an encrypting create get past the settings
check, so that the file set is assembled at all), the create handler reaches
the file stage but not the network stage (first conjunct) and raises a
`GistError` naming an empty file of the set (second conjunct) — the error is
raised before the API create call. -/
theorem create_rejects_empty_files :
    ∀ (cfg : Config) (encrypt isPublic : Bool) (desc : String)
      (assembled : List FileInfo) (encryptFn : String → String)
      (api : String → List (String × String) → Bool → String),
      (encrypt = true → cfg.gnupgHomedir.isSome = true ∧ cfg.gnupgFingerprint.isSome = true) →
      (∃ f ∈ assembled, f.content.length = 0) →
      (handle_gist_create cfg encrypt isPublic desc assembled encryptFn api).2
          = { fileStage := true, network := false }
      ∧ ∃ f ∈ assembled, f.content.length = 0
          ∧ (handle_gist_create cfg encrypt isPublic desc assembled encryptFn api).1
              = .error (.gistError (apos ++ f.name ++ apos ++ " is empty")) := by
  intro cfg encrypt isPublic desc assembled encryptFn api hcfg hex
  obtain ⟨f, hf, hf0⟩ := hex
  have hsome : (assembled.find? (fun f => f.content.length == 0)).isSome = true := by
    rw [List.find?_isSome]
    exact ⟨f, hf, by simpa using hf0⟩
  obtain ⟨g, hg⟩ := Option.isSome_iff_exists.mp hsome
  have hgmem : g ∈ assembled := List.mem_of_find?_eq_some hg
  have hg0 : g.content.length = 0 := by simpa using List.find?_some hg
  have hne1 : ¬ (encrypt = true ∧ cfg.gnupgHomedir.isNone = true) := by
    rintro ⟨he, hn⟩
    have h1 := (hcfg he).1
    rw [Option.isNone_iff_eq_none] at hn
    rw [hn] at h1
    simp at h1
  have hne2 : ¬ (encrypt = true ∧ cfg.gnupgFingerprint.isNone = true) := by
    rintro ⟨he, hn⟩
    have h1 := (hcfg he).2
    rw [Option.isNone_iff_eq_none] at hn
    rw [hn] at h1
    simp at h1
  unfold handle_gist_create
  rw [if_neg hne1, if_neg hne2, hg]
  exact ⟨rfl, g, hgmem, hg0, rfl⟩

/-- Witness for claim C4: a one-file set whose file is empty makes the
handler stop before the network call and report that file. -/
theorem create_rejects_empty_files_witness :
    (handle_gist_create ⟨none, none⟩ false false "d" [⟨"file1.txt", ""⟩] id
        (fun _ _ _ => "url")).2 = { fileStage := true, network := false }
    ∧ ∃ f ∈ [(⟨"file1.txt", ""⟩ : FileInfo)], f.content.length = 0
        ∧ (handle_gist_create ⟨none, none⟩ false false "d" [⟨"file1.txt", ""⟩] id
            (fun _ _ _ => "url")).1
          = .error (.gistError (apos ++ f.name ++ apos ++ " is empty")) :=
  create_rejects_empty_files ⟨none, none⟩ false false "d" [⟨"file1.txt", ""⟩] id
    (fun _ _ _ => "url") (fun h => nomatch h) ⟨⟨"file1.txt", ""⟩, by simp, rfl⟩

/-- Claim C5: an encrypting create with `gnupg-homedir` absent fails with the
homedir configuration error before any file I/O and with no network call
(first conjunct); with the homedir present but `gnupg-fingerprint` absent it
fails likewise with the fingerprint error (second conjunct); with both
present the check passes and the handler proceeds to the file stage (third
conjunct). -/
theorem create_encrypt_requires_gnupg_config :
    ∀ (cfg : Config) (isPublic : Bool) (desc : String) (assembled : List FileInfo)
      (encryptFn : String → String) (api : String → List (String × String) → Bool → String),
      (cfg.gnupgHomedir = none →
        handle_gist_create cfg true isPublic desc assembled encryptFn api
          = (.error (.gistError "gnupg-homedir missing from config file"),
             { fileStage := false, network := false }))
      ∧ (cfg.gnupgHomedir.isSome = true → cfg.gnupgFingerprint = none →
          handle_gist_create cfg true isPublic desc assembled encryptFn api
            = (.error (.gistError "gnupg-fingerprint missing from config file"),
               { fileStage := false, network := false }))
      ∧ (cfg.gnupgHomedir.isSome = true → cfg.gnupgFingerprint.isSome = true →
          (handle_gist_create cfg true isPublic desc assembled encryptFn api).2.fileStage
            = true) := by
  intro cfg isPublic desc assembled encryptFn api
  refine ⟨?_, ?_, ?_⟩
  · intro h
    unfold handle_gist_create
    rw [if_pos ⟨rfl, by simp [h]⟩]
  · intro hs h
    unfold handle_gist_create
    rw [if_neg (by rintro ⟨_, hn⟩; rw [Option.isNone_iff_eq_none] at hn; rw [hn] at hs; simp at hs),
        if_pos ⟨rfl, by simp [h]⟩]
  · intro hs hf
    unfold handle_gist_create
    rw [if_neg (by rintro ⟨_, hn⟩; rw [Option.isNone_iff_eq_none] at hn; rw [hn] at hs; simp at hs),
        if_neg (by rintro ⟨_, hn⟩; rw [Option.isNone_iff_eq_none] at hn; rw [hn] at hf; simp at hf)]
    cases assembled.find? (fun f => f.content.length == 0) <;> rfl

/-- Witness for claim C5: with an empty configuration the encrypting create
fails fast with the homedir error and no file or network activity; with both
settings present it reaches the file stage. -/
theorem create_encrypt_requires_gnupg_config_witness :
    handle_gist_create ⟨none, none⟩ true false "d" [] id (fun _ _ _ => "url")
      = (.error (.gistError "gnupg-homedir missing from config file"),
         { fileStage := false, network := false })
    ∧ (handle_gist_create ⟨some "hd", some "fp"⟩ true false "d" [] id
        (fun _ _ _ => "url")).2.fileStage = true :=
  ⟨(create_encrypt_requires_gnupg_config ⟨none, none⟩ false "d" [] id
      (fun _ _ _ => "url")).1 rfl,
   (create_encrypt_requires_gnupg_config ⟨some "hd", some "fp"⟩ false "d" [] id
      (fun _ _ _ => "url")).2.2 rfl rfl⟩

/-- Claim C6: with token f00 and an endpoint answering every list request
with the two records of ids 1 and 2, the list command prints exactly the two
lines of the scenario, a plus marking the public gist and a minus the
private one. The run has no attached terminal (`terminal_width()` is `None`,
as in the scenario's piped invocation), so `elide` leaves each line
unchanged. -/
theorem handle_gist_list_concrete_output :
    handle_gist_list "f00" listScenarioFetch none 5
      = .ok ["1 + test-desc-A", "2 - test-desc-Ⅽ"] := rfl

/-- The content loop on files whose stored bodies each decode: every file
contributes its name paired with its decoded text. -/
theorem contentItems_decodes (files : List (String × String × String))
    (h : files.map (fun f => convert (.str f.2.1)) = files.map (fun f => Except.ok f.2.2)) :
    contentItems (files.map (fun f => (f.1, Json.obj [("content", Json.str f.2.1)])))
      = .ok (files.map (fun f => (f.1, f.2.2))) := by
  induction files with
  | nil => rfl
  | cons f fs ih =>
    rw [List.map_cons, List.map_cons, List.cons.injEq] at h
    obtain ⟨hf, hfs⟩ := h
    simp [contentItems, subscript, objLookup, hf, ih hfs]

/-- Claim C7: for every gist whose files map names to stored bodies that
base64-decode to texts (the hypothesis equates, file by file, the conversion
of the stored body with the decoded text), the content command with no
filename argument prints, for each file in order, its name followed by a
colon, a newline and the decoded text. -/
theorem content_prints_decoded_files :
    ∀ files : List (String × String × String),
      files.map (fun f => convert (.str f.2.1)) = files.map (fun f => Except.ok f.2.2) →
      handle_gist_content none (gistResource files)
        = .ok (files.map (fun f => f.1 ++ ":\n" ++ f.2.2 ++ "\n")) := by
  intro files h
  have hc := contentItems_decodes files h
  simp [handle_gist_content, gistResource, GistAPI.content, subscript, objLookup,
    dictItems, hc, List.map_map, Function.comp]

/-- Witness for claim C7 at the scenario's two files, whose stored bodies
are the base64 encodings of the expected texts. -/
theorem content_prints_decoded_files_witness :
    handle_gist_content none (gistResource contentScenarioFiles)
      = .ok ["file-A.txt:\ntest-content-A\n", "file-B.txt:\ntest-content-Ⅽ\n"] := by
  have h := content_prints_decoded_files contentScenarioFiles rfl
  exact h.trans rfl

/-- Claim C8: whenever the gist is cloned (the external git call succeeds,
so the clone directory exists under the temporary directory), the `finally`
clause of `edit` removes that directory before the operation returns or
raises, whatever the exit statuses of the editor and of the
commit-and-push command are — `os.system` reports failures through its
return value, which `edit` ignores, so the inner `pushd` body never raises
and the working directory is back at the temporary directory when
`shutil.rmtree` runs. The only hypothesis is that the temporary directory
exists. -/
theorem edit_removes_clone_directory :
    ∀ (tmp : List String) (id : String) (editorStatus commitPushStatus : Int) (fs : FS),
      fs.dirs.contains tmp = true →
      ((GistAPI.edit tmp true editorStatus commitPushStatus id fs).2.dirs.contains
          (tmp ++ [id])) = false := by
  intro tmp id e c fs h
  have hb : ((tmp ++ [id]) :: fs.dirs).contains (tmp ++ [id]) = true := by simp
  have hc : ((tmp ++ [id]) :: fs.dirs).contains tmp = true := by
    simp [List.contains] at h ⊢
    simp [h]
  simp only [GistAPI.edit, pushd, pyTryFinally, GistAPI.clone, rmtree, chdir, resolve, h,
    if_true, hb, hc]
  split <;> rename_i heq <;> split at heq <;>
    simp_all [List.contains, List.mem_filter] <;>
    (subst heq; simp_all [List.mem_filter])

/-- Witness for claim C8: on the concrete filesystem of the edit scenario,
with a failing editor status and a failing push status, the clone directory
is gone after `edit`. -/
theorem edit_removes_clone_directory_witness :
    ((GistAPI.edit ["tmp"] true 1 1 "g1" editScenarioFS).2.dirs.contains
        (["tmp"] ++ ["g1"])) = false :=
  edit_removes_clone_directory ["tmp"] "g1" 1 1 editScenarioFS rfl

/-- Claim C9: with a determined terminal width above 3 and a text longer
than the width, `elide` returns a string of length exactly the width whose
last three characters are dots and whose first characters are the
corresponding prefix of the text; in every other case (no terminal, width at
most 3, or text no longer than the width) the text is returned unchanged. -/
theorem elide_behaviour :
    ∀ (w : Nat) (txt : String),
      (3 < w → w < txt.length →
        (elide (some w) txt).length = w
        ∧ (elide (some w) txt).data.drop (w - 3) = ['.', '.', '.']
        ∧ (elide (some w) txt).data.take (w - 3) = txt.data.take (w - 3))
      ∧ elide none txt = txt
      ∧ (w ≤ 3 → elide (some w) txt = txt)
      ∧ (txt.length ≤ w → elide (some w) txt = txt) := by
  intro w txt
  refine ⟨?_, rfl, ?_, ?_⟩
  · intro h3 hl
    have hlen : txt.length = txt.data.length := rfl
    have htk : (txt.data.take (w - 3)).length = w - 3 := by
      rw [List.length_take]
      omega
    rw [elide, if_pos h3, if_pos hl]
    refine ⟨?_, ?_, ?_⟩
    · show (txt.data.take (w - 3) ++ ['.', '.', '.']).length = w
      rw [List.length_append, htk]
      simp
      omega
    · show (txt.data.take (w - 3) ++ ['.', '.', '.']).drop (w - 3) = ['.', '.', '.']
      exact List.drop_left' htk
    · show (txt.data.take (w - 3) ++ ['.', '.', '.']).take (w - 3) = txt.data.take (w - 3)
      exact List.take_left' htk
  · intro hw
    rw [elide, if_neg (by omega)]
  · intro hl
    rw [elide]
    split
    · rw [if_neg (by omega)]
    · rfl

/-- Witness for claim C9: a width of 10 against a sixteen-character text
gives a ten-character result ending in three dots and starting with the
first seven characters of the text. -/
theorem elide_behaviour_witness :
    (elide (some 10) "abcdefghijklmnop").length = 10
    ∧ (elide (some 10) "abcdefghijklmnop").data.drop 7 = ['.', '.', '.']
    ∧ (elide (some 10) "abcdefghijklmnop").data.take 7
        = "abcdefghijklmnop".data.take 7 := by
  have h := (elide_behaviour 10 "abcdefghijklmnop").1 (by decide) (by decide)
  exact h

/-- Claim C10: `pushd` restores the original working directory only when its
body completes without raising. Whenever the body run in the pushed
directory raises, `pushd` propagates the exception and the final filesystem
state is exactly the state the body left — the restoring `os.chdir` is
skipped, so a body that raises without changing directory leaves the process
in the pushed directory (first conjunct); a body that completes normally has
the original directory restored (second conjunct). -/
theorem pushd_restores_only_on_success :
    ∀ {α : Type} (p : PyPath) (body : FS → Except OSErr α × FS) (fs : FS),
      fs.dirs.contains (resolve fs.cwd p) = true →
      (∀ (e : OSErr) (fs2 : FS),
        body { fs with cwd := resolve fs.cwd p } = (.error e, fs2) →
        pushd p body fs = (.error e, fs2))
      ∧ (∀ (a : α) (fs2 : FS),
          body { fs with cwd := resolve fs.cwd p } = (.ok a, fs2) →
          fs2.dirs.contains fs.cwd = true →
          pushd p body fs = (.ok a, { fs2 with cwd := fs.cwd })) := by
  intro α p body fs hc
  constructor
  · intro e fs2 hb
    rw [pushd, chdir]
    simp only [hc, if_true, hb]
  · intro a fs2 hb hr
    rw [pushd]
    simp only [chdir, hc, if_true, hb]
    simp only [resolve, hr, if_true]

/-- Witness for claim C10: a body that raises immediately leaves the process
in the pushed directory `b`, not the original directory `a`. -/
theorem pushd_restores_only_on_success_witness :
    pushd (.abs ["b"]) (fun s => (Except.error (α := Unit) OSErr.fileNotFound, s))
        { cwd := ["a"], dirs := [["a"], ["b"]] }
      = (.error .fileNotFound, { cwd := ["b"], dirs := [["a"], ["b"]] }) :=
  (pushd_restores_only_on_success (.abs ["b"])
      (fun s => (Except.error (α := Unit) OSErr.fileNotFound, s))
      { cwd := ["a"], dirs := [["a"], ["b"]] } rfl).1
    .fileNotFound { cwd := ["b"], dirs := [["a"], ["b"]] } rfl
